import Mathlib

/-
Verification of the coordinate-transformation module `transform.py` of the
GeoscienceAustralia geodesy package.

Conventions of the shallow embedding:
* Python floats are modelled as real numbers (`ℝ`); float rounding is not
  modelled, so every numeric identity below is an identity of real-number
  formulas.
* Python raises `ZeroDivisionError` on float division by zero and
  `ValueError` on `math.log` of a non-positive argument or `math.sqrt` of a
  negative argument.  Functions whose claims concern error behaviour
  (`geo2grid`, `llh2xyz`, `xyz2llh`, the ellipsoid-constant derivation) are
  embedded with `Except PyError` and an explicit guard, in source order, at
  each operation that can raise.  Divisions whose divisor is a fixed
  non-zero numeric constant of the module (`0.9996`, the rectifying radius
  `A`, `semi_maj`) are modelled with total real division, since the Python
  operation on those constants cannot raise; the corresponding positivity
  facts are proved as lemmas.
* The unbounded `while` loop of `xyz2llh` is modelled with an explicit
  fuel parameter; `none` means the loop is still running after `fuel`
  iterations.  The source has no iteration cap, so no fuel value is
  distinguished by the code itself.
* `round(x, k)` is modelled as `roundN k x = round (x * 10^k) / 10^k`;
  the tie-breaking rule of Python's `round` (half to even) differs from
  Mathlib's `round` (half up) only on exact ties, which none of the claims
  depend on.
-/

noncomputable section

namespace Transform

/-- Errors a conversion can signal.  `zeroDivision` and `mathDomain` are the
exceptions Python's float division / `math.log` / `math.sqrt` actually raise;
`invalidLatitude`, `invalidEllipsoid` and `nonConvergence` are the error
classes named by the specification, included so that claims about them are
statable. -/
inductive PyError where
  | zeroDivision
  | mathDomain
  | invalidLatitude
  | invalidEllipsoid
  | nonConvergence
deriving DecidableEq

/-- True exactly on successful results. -/
def isOkE {α : Type} : Except PyError α → Bool
  | .ok _ => true
  | .error _ => false

/-- Python `math.radians`. -/
def radians (x : ℝ) : ℝ := x * (Real.pi / 180)

/-- Python `math.degrees`. -/
def degrees (x : ℝ) : ℝ := x * (180 / Real.pi)

/-- Python `int()` applied to a real: truncation toward zero. -/
def trunc (x : ℝ) : ℤ := if x < 0 then ⌈x⌉ else ⌊x⌋

/-- Python `round(x, k)`, up to the tie-breaking rule. -/
def roundN (k : ℕ) (x : ℝ) : ℝ := (round (x * 10 ^ k) : ℤ) / 10 ^ k

/-- Python `math.atan2`. -/
def atan2 (y x : ℝ) : ℝ :=
  if 0 < x then Real.arctan (y / x)
  else if x < 0 ∧ 0 ≤ y then Real.arctan (y / x) + Real.pi
  else if x < 0 ∧ y < 0 then Real.arctan (y / x) - Real.pi
  else if x = 0 ∧ 0 < y then Real.pi / 2
  else if x = 0 ∧ y < 0 then -(Real.pi / 2)
  else 0

/-! ### Projection parameters and ellipsoid constants

Modelled from the spec: the tuple `grs80` imported from `constants.py` is not
part of the sources; §6 of the spec fixes the projection parameters (zone
width 6°, central scale factor 0.9996, false easting 500000 m, false
northing 10000000 m, zone-numbering origin −177°) and names the ellipsoid as
GRS80, whose defining parameters are semi-major axis 6378137 m and inverse
flattening 298.257222101. -/

/-- GRS80 semi-major axis, `proj[0]` (m). -/
def semi_maj : ℝ := 6378137

/-- GRS80 inverse flattening, `proj[1]`. -/
def invFlat : ℝ := 298.257222101

/-- False easting, `proj[2]` (m). -/
def falseEast : ℝ := 500000

/-- False northing, `proj[3]` (m). -/
def falseNorth : ℝ := 10000000

/-- Central scale factor, `proj[4]`. -/
def k0 : ℝ := 0.9996

/-- Zone width, `proj[5]` (degrees). -/
def zonewidth : ℝ := 6

/-- Longitude of the zone-numbering origin, `proj[6]` (degrees). -/
def zone0 : ℝ := -177

/-- Flattening, `f = 1 / proj[1]` (transform.py line 62). -/
def f : ℝ := 1 / invFlat

/-- Semi-minor axis, `semi_min = semi_maj * (1 - f)` (line 64). -/
def semi_min : ℝ := semi_maj * (1 - f)

/-- First eccentricity squared, `ecc1sq = f * (2 - f)` (line 65). -/
def ecc1sq : ℝ := f * (2 - f)

/-- Second eccentricity squared, `ecc2sq = ecc1sq / (1 - ecc1sq)` (line 66). -/
def ecc2sq : ℝ := ecc1sq / (1 - ecc1sq)

/-- First eccentricity, `ecc1 = sqrt(ecc1sq)` (line 67). -/
def ecc1 : ℝ := Real.sqrt ecc1sq

/-- Third flattening, `n = f / (2 - f)` (lines 68-69). -/
def n : ℝ := f / (2 - f)

/-- `n2 = n ** 2` (line 70). -/
def n2 : ℝ := n ^ 2

/-- The six derived scalars of lines 62-69, in source order. -/
structure EllipsoidConsts where
  flat : ℝ
  semiMin : ℝ
  e1sq : ℝ
  e2sq : ℝ
  e1 : ℝ
  thirdFlat : ℝ

/-- The ellipsoid-constant derivation of transform.py lines 62-69, made
parametric in `(a, invF)` so that behaviour on arbitrary configurations is
statable.  Each guard is the condition under which the corresponding Python
operation raises, in source order.  The module performs no validation of its
own: there is no `invalidEllipsoid` branch anywhere. -/
def deriveEllipsoid (a invF : ℝ) : Except PyError EllipsoidConsts :=
  if invF = 0 then .error .zeroDivision
  else if 1 - (1 / invF) * (2 - 1 / invF) = 0 then .error .zeroDivision
  else if (1 / invF) * (2 - 1 / invF) < 0 then .error .mathDomain
  else if 2 - 1 / invF = 0 then .error .zeroDivision
  else .ok { flat := 1 / invF
             semiMin := a * (1 - 1 / invF)
             e1sq := (1 / invF) * (2 - 1 / invF)
             e2sq := (1 / invF) * (2 - 1 / invF) / (1 - (1 / invF) * (2 - 1 / invF))
             e1 := Real.sqrt ((1 / invF) * (2 - 1 / invF))
             thirdFlat := (1 / invF) / (2 - 1 / invF) }

/-! ### Rectifying radius and series coefficients (transform.py lines 74-218) -/

/-- Rectifying radius in Horner form (lines 74-81). -/
def A : ℝ :=
  semi_maj / (1 + n) * ((n2 * (n2 * (n2 * (25 * n2 + 64) + 256) + 4096) + 16384) / 16384)

/-- Alpha coefficient (lines 84-97). -/
def a2 : ℝ :=
  (n * (n * (n * (n * (n * (n * ((37884525 - 75900428 * n) * n + 42422016)
    - 89611200) + 46287360) + 63504000) - 135475200) + 101606400)) / 203212800

/-- Alpha coefficient (lines 99-111). -/
def a4 : ℝ :=
  (n2 * (n * (n * (n * (n * (n * (148003883 * n + 83274912) - 178508970)
    + 77690880) + 67374720) - 104509440) + 47174400)) / 174182400

/-- Alpha coefficient (lines 113-123). -/
def a6 : ℝ :=
  (n ^ 3 * (n * (n * (n * (n * (318729724 * n - 738126169) + 294981280)
    + 178924680) - 234938880) + 81164160)) / 319334400

/-- Alpha coefficient (lines 125-131). -/
def a8 : ℝ :=
  (n ^ 4 * (n * (n * ((14967552000 - 40176129013 * n) * n + 6971354016)
    - 8165836800) + 2355138720)) / 7664025600

/-- Alpha coefficient (lines 133-139). -/
def a10 : ℝ :=
  (n ^ 5 * (n * (n * (10421654396 * n + 3997835751) - 4266773472)
    + 1072709352)) / 2490808320

/-- Alpha coefficient (lines 141-145). -/
def a12 : ℝ :=
  (n ^ 6 * (n * (175214326799 * n - 171950693600) + 38652967262)) / 58118860800

/-- Alpha coefficient (lines 147-149). -/
def a14 : ℝ :=
  (n ^ 7 * (13700311101 - 67039739596 * n)) / 12454041600

/-- Alpha coefficient (line 151). -/
def a16 : ℝ :=
  (1424729850961 * n ^ 8) / 743921418240

/-- Beta coefficient (lines 154-166); the innermost factor
`(37845269 - 31777436 * n) - 43097152` is transcribed exactly as the source
has it. -/
def b2 : ℝ :=
  (n * (n * (n * (n * (n * (n * ((37845269 - 31777436 * n) - 43097152)
    + 42865200) + 752640) - 104428800) + 180633600) - 135475200)) / 270950400

/-- Beta coefficient (lines 168-178). -/
def b4 : ℝ :=
  (n ^ 2 * (n * (n * (n * (n * ((-24749483 * n - 14930208) * n + 100683990)
    - 152616960) + 105719040) - 23224320) - 7257600)) / 348364800

/-- Beta coefficient (lines 180-190). -/
def b6 : ℝ :=
  (n ^ 3 * (n * (n * (n * (n * (232468668 * n - 101880889) - 39205760)
    + 29795040) + 28131840) - 22619520)) / 638668800

/-- Beta coefficient (lines 192-198). -/
def b8 : ℝ :=
  (n ^ 4 * (n * (n * ((-324154477 * n - 1433121792) * n + 876745056)
    + 167270400) - 208945440)) / 7664025600

/-- Beta coefficient (lines 200-206). -/
def b10 : ℝ :=
  (n ^ 5 * (n * (n * (312227409 - 457888660 * n) + 67920528)
    - 70779852)) / 2490808320

/-- Beta coefficient (lines 208-212). -/
def b12 : ℝ :=
  (n ^ 6 * (n * (19841813847 * n + 3665348512) - 3758062126)) / 116237721600

/-- Beta coefficient (lines 214-216). -/
def b14 : ℝ :=
  (n ^ 7 * (1989295244 * n - 1979471673)) / 49816166400

/-- Beta coefficient (line 218). -/
def b16 : ℝ :=
  (-191773887257 * n ^ 8) / 3719607091200

/-! ### Forward projection `geo2grid` (transform.py lines 221-267) -/

/-- Zone number, line 229: `int((float(long) - (proj[6] - (1.5 * proj[5]))) / proj[5])`.
Python `int()` truncates toward zero. -/
def zoneCalc (long : ℝ) : ℤ := trunc ((long - (zone0 - 1.5 * zonewidth)) / zonewidth)

/-- Central meridian, line 230: `float(zone * proj[5]) + (proj[6] - proj[5])`. -/
def cmCalc (long : ℝ) : ℝ := (zoneCalc long : ℝ) * zonewidth + (zone0 - zonewidth)

/-- `tan(radians(lat))`, the common subterm of lines 232-234. -/
def fwdT (lat : ℝ) : ℝ := Real.tan (radians lat)

/-- `sigx` of line 232. -/
def fwdSigx (lat : ℝ) : ℝ := ecc1 * fwdT lat / Real.sqrt (1 + fwdT lat ^ 2)

/-- `sig` of line 233. -/
def fwdSig (lat : ℝ) : ℝ :=
  Real.sinh (ecc1 * (0.5 * Real.log ((1 + fwdSigx lat) / (1 - fwdSigx lat))))

/-- Conformal latitude, lines 234-235. -/
def fwdConfLat (lat : ℝ) : ℝ :=
  Real.arctan (fwdT lat * Real.sqrt (1 + fwdSig lat ^ 2)
    - fwdSig lat * Real.sqrt (1 + fwdT lat ^ 2))

/-- Longitude difference in radians, line 237 (the `Decimal` subtraction is
exact in the real-number model). -/
def longDiff (long : ℝ) : ℝ := radians (long - cmCalc long)

/-- Gauss-Schreiber ratio `xi1`, line 239. -/
def fwdXi1 (lat long : ℝ) : ℝ :=
  Real.arctan (Real.tan (fwdConfLat lat) / Real.cos (longDiff long))

/-- `eta1x`, line 240. -/
def fwdEta1x (lat long : ℝ) : ℝ :=
  Real.sin (longDiff long)
    / Real.sqrt (Real.tan (fwdConfLat lat) ^ 2 + Real.cos (longDiff long) ^ 2)

/-- Gauss-Schreiber ratio `eta1`, line 241. -/
def fwdEta1 (lat long : ℝ) : ℝ :=
  Real.log (fwdEta1x lat long + Real.sqrt (1 + fwdEta1x lat long ^ 2))

/-- Transverse Mercator ratio `eta`, lines 243-250 and 259. -/
def fwdEta (lat long : ℝ) : ℝ :=
  fwdEta1 lat long
    + a2 * Real.cos (2 * fwdXi1 lat long) * Real.sinh (2 * fwdEta1 lat long)
    + a4 * Real.cos (4 * fwdXi1 lat long) * Real.sinh (4 * fwdEta1 lat long)
    + a6 * Real.cos (6 * fwdXi1 lat long) * Real.sinh (6 * fwdEta1 lat long)
    + a8 * Real.cos (8 * fwdXi1 lat long) * Real.sinh (8 * fwdEta1 lat long)
    + a10 * Real.cos (10 * fwdXi1 lat long) * Real.sinh (10 * fwdEta1 lat long)
    + a12 * Real.cos (12 * fwdXi1 lat long) * Real.sinh (12 * fwdEta1 lat long)
    + a14 * Real.cos (14 * fwdXi1 lat long) * Real.sinh (14 * fwdEta1 lat long)
    + a16 * Real.cos (16 * fwdXi1 lat long) * Real.sinh (16 * fwdEta1 lat long)

/-- Transverse Mercator ratio `xi`, lines 251-258 and 260. -/
def fwdXi (lat long : ℝ) : ℝ :=
  fwdXi1 lat long
    + a2 * Real.sin (2 * fwdXi1 lat long) * Real.cosh (2 * fwdEta1 lat long)
    + a4 * Real.sin (4 * fwdXi1 lat long) * Real.cosh (4 * fwdEta1 lat long)
    + a6 * Real.sin (6 * fwdXi1 lat long) * Real.cosh (6 * fwdEta1 lat long)
    + a8 * Real.sin (8 * fwdXi1 lat long) * Real.cosh (8 * fwdEta1 lat long)
    + a10 * Real.sin (10 * fwdXi1 lat long) * Real.cosh (10 * fwdEta1 lat long)
    + a12 * Real.sin (12 * fwdXi1 lat long) * Real.cosh (12 * fwdEta1 lat long)
    + a14 * Real.sin (14 * fwdXi1 lat long) * Real.cosh (14 * fwdEta1 lat long)
    + a16 * Real.sin (16 * fwdXi1 lat long) * Real.cosh (16 * fwdEta1 lat long)

/-- Easting, lines 262 and 265 before rounding. -/
def eastOf (lat long : ℝ) : ℝ := k0 * (A * fwdEta lat long) + falseEast

/-- Northing, lines 263 and 266 before rounding. -/
def northOf (lat long : ℝ) : ℝ := k0 * (A * fwdXi lat long) + falseNorth

/-- `geo2grid` (lines 221-267).  The guards are, in source order, the
conditions under which the Python float operations of lines 232-241 raise:
the divisions of lines 232, 233, 239 and 240 (`ZeroDivisionError`) and the
`log` calls of lines 233 and 241 (`ValueError`); `sqrt` domain guards on the
manifestly non-negative arguments `1 + _^2` and `_^2 + _^2` are omitted.
There is no latitude validation anywhere in the source function. -/
def geo2grid (lat long : ℝ) : Except PyError (ℤ × ℝ × ℝ) :=
  if Real.sqrt (1 + fwdT lat ^ 2) = 0 then .error .zeroDivision
  else if 1 - fwdSigx lat = 0 then .error .zeroDivision
  else if (1 + fwdSigx lat) / (1 - fwdSigx lat) ≤ 0 then .error .mathDomain
  else if Real.cos (longDiff long) = 0 then .error .zeroDivision
  else if Real.sqrt (Real.tan (fwdConfLat lat) ^ 2 + Real.cos (longDiff long) ^ 2) = 0 then
    .error .zeroDivision
  else if fwdEta1x lat long + Real.sqrt (1 + fwdEta1x lat long ^ 2) ≤ 0 then .error .mathDomain
  else .ok (zoneCalc long, roundN 5 (eastOf lat long), roundN 5 (northOf lat long))

/-! ### Inverse projection `grid2geo` (transform.py lines 270-333) -/

/-- Transverse Mercator ratio `xi`, lines 279 and 281. -/
def tmXi (northing : ℝ) : ℝ := (northing - falseNorth) / k0 / A

/-- Transverse Mercator ratio `eta`, lines 278 and 282. -/
def tmEta (easting : ℝ) : ℝ := (easting - falseEast) / k0 / A

/-- Gauss-Schreiber ratio `xi1`, lines 284-291 and 300. -/
def gsXi1 (easting northing : ℝ) : ℝ :=
  tmXi northing
    + b2 * Real.sin (2 * tmXi northing) * Real.cosh (2 * tmEta easting)
    + b4 * Real.sin (4 * tmXi northing) * Real.cosh (4 * tmEta easting)
    + b6 * Real.sin (6 * tmXi northing) * Real.cosh (6 * tmEta easting)
    + b8 * Real.sin (8 * tmXi northing) * Real.cosh (8 * tmEta easting)
    + b10 * Real.sin (10 * tmXi northing) * Real.cosh (10 * tmEta easting)
    + b12 * Real.sin (12 * tmXi northing) * Real.cosh (12 * tmEta easting)
    + b14 * Real.sin (14 * tmXi northing) * Real.cosh (14 * tmEta easting)
    + b16 * Real.sin (16 * tmXi northing) * Real.cosh (16 * tmEta easting)

/-- Gauss-Schreiber ratio `eta1`, lines 292-299 and 301. -/
def gsEta1 (easting northing : ℝ) : ℝ :=
  tmEta easting
    + b2 * Real.cos (2 * tmXi northing) * Real.sinh (2 * tmEta easting)
    + b4 * Real.cos (4 * tmXi northing) * Real.sinh (4 * tmEta easting)
    + b6 * Real.cos (6 * tmXi northing) * Real.sinh (6 * tmEta easting)
    + b8 * Real.cos (8 * tmXi northing) * Real.sinh (8 * tmEta easting)
    + b10 * Real.cos (10 * tmXi northing) * Real.sinh (10 * tmEta easting)
    + b12 * Real.cos (12 * tmXi northing) * Real.sinh (12 * tmEta easting)
    + b14 * Real.cos (14 * tmXi northing) * Real.sinh (14 * tmEta easting)
    + b16 * Real.cos (16 * tmXi northing) * Real.sinh (16 * tmEta easting)

/-- The conformal-latitude proxy `t1`, lines 303-304. -/
def t1Of (easting northing : ℝ) : ℝ :=
  Real.sin (gsXi1 easting northing)
    / Real.sqrt (Real.sinh (gsEta1 easting northing) ^ 2 + Real.cos (gsXi1 easting northing) ^ 2)

/-- `sigma(t)` of lines 308-311. -/
def sigmaT (t : ℝ) : ℝ :=
  Real.sinh (ecc1 * 0.5 * Real.log
    ((1 + ecc1 * t / Real.sqrt (1 + t ^ 2)) / (1 - ecc1 * t / Real.sqrt (1 + t ^ 2))))

/-- `ftn(t)` of lines 313-315; the first argument is the enclosing `t1`. -/
def ftn (t1 t : ℝ) : ℝ :=
  t * Real.sqrt (1 + sigmaT t ^ 2) - sigmaT t * Real.sqrt (1 + t ^ 2) - t1

/-- `f1tn(t)` of lines 317-320. -/
def f1tn (t : ℝ) : ℝ :=
  (Real.sqrt (1 + sigmaT t ^ 2) * Real.sqrt (1 + t ^ 2) - sigmaT t * t)
    * ((1 - ecc1sq) * Real.sqrt (1 + t ^ 2) / (1 + (1 - ecc1sq) * t ^ 2))

/-- One Newton step `t - ftn(t)/f1tn(t)`, as in lines 322-324. -/
def newtonStep (t1 t : ℝ) : ℝ := t - ftn t1 t / f1tn t

/-- Everything of `grid2geo` except the Newton latitude recovery and the
final rounding: the guarded computation up to `t1` (line 303, whose divisor
can vanish) together with the unrounded longitude of lines 330-332 (whose
divisor `cos(xi1)` can vanish).  The divisions inside the Newton iteration
itself are modelled as total: their divisors are proved non-zero below
(`sqrt_one_add_sq_pos`, `one_sub_eccRatio_pos`, `eccRatio_quotient_pos`,
`f1tn_pos`), so the Python code cannot raise there. -/
def gridStem (zone easting northing : ℝ) : Except PyError (ℝ × ℝ) :=
  if Real.sqrt (Real.sinh (gsEta1 easting northing) ^ 2
      + Real.cos (gsXi1 easting northing) ^ 2) = 0 then .error .zeroDivision
  else if Real.cos (gsXi1 easting northing) = 0 then .error .zeroDivision
  else .ok (t1Of easting northing,
    zone * zonewidth + zone0 - zonewidth
      + degrees (Real.arctan (Real.sinh (gsEta1 easting northing)
          / Real.cos (gsXi1 easting northing))))

/-- `grid2geo` (lines 270-333): after the stem, exactly the three unrolled
Newton steps `t2, t3, t4` of lines 322-324 starting from `t1`, latitude
`degrees(atan(t4))` (line 328), longitude from the zone's central meridian
(lines 330-332), both rounded to 11 decimal places (line 333). -/
def grid2geo (zone easting northing : ℝ) : Except PyError (ℝ × ℝ) :=
  if Real.sqrt (Real.sinh (gsEta1 easting northing) ^ 2
      + Real.cos (gsXi1 easting northing) ^ 2) = 0 then .error .zeroDivision
  else if Real.cos (gsXi1 easting northing) = 0 then .error .zeroDivision
  else .ok (roundN 11 (degrees (Real.arctan
      (newtonStep (t1Of easting northing)
        (newtonStep (t1Of easting northing)
          (newtonStep (t1Of easting northing) (t1Of easting northing)))))),
    roundN 11 (zone * zonewidth + zone0 - zonewidth
      + degrees (Real.arctan (Real.sinh (gsEta1 easting northing)
          / Real.cos (gsXi1 easting northing)))))

/-! ### Geographic to Cartesian `llh2xyz` (transform.py lines 362-379) -/

/-- The Cartesian triple of lines 376-378 as a function of `nu`. -/
def xyzOf (nu latr longr ellht : ℝ) : ℝ × ℝ × ℝ :=
  ((nu + ellht) * Real.cos latr * Real.cos longr,
   (nu + ellht) * Real.cos latr * Real.sin longr,
   (semi_min ^ 2 / semi_maj ^ 2 * nu + ellht) * Real.sin latr)

/-- `llh2xyz` (lines 362-379): `nu = proj[0]` when the latitude in radians is
exactly zero (lines 371-372), otherwise `nu = semi_maj / sqrt(1 - ecc1sq *
sin(lat)^2)` (line 374), whose `sqrt` and division are guarded as Python
guards them.  There is no latitude validation in the source function. -/
def llh2xyz (lat long ellht : ℝ) : Except PyError (ℝ × ℝ × ℝ) :=
  if radians lat = 0 then .ok (xyzOf semi_maj (radians lat) (radians long) ellht)
  else if 1 - ecc1sq * Real.sin (radians lat) ^ 2 < 0 then .error .mathDomain
  else if Real.sqrt (1 - ecc1sq * Real.sin (radians lat) ^ 2) = 0 then .error .zeroDivision
  else .ok (xyzOf (semi_maj / Real.sqrt (1 - ecc1sq * Real.sin (radians lat) ^ 2))
      (radians lat) (radians long) ellht)

/-- The closed form stated by the spec for `llh2xyz`, with the radius of
curvature in the prime vertical `nu = a / sqrt(1 - e1^2 sin^2 lat)` applied
uniformly (no special case). -/
def nuSpecOf (latr : ℝ) : ℝ := semi_maj / Real.sqrt (1 - ecc1sq * Real.sin latr ^ 2)

/-- The spec's closed-form output for `llh2xyz`. -/
def xyzSpec (lat long ellht : ℝ) : ℝ × ℝ × ℝ :=
  xyzOf (nuSpecOf (radians lat)) (radians lat) (radians long) ellht

/-! ### Cartesian to geographic `xyz2llh` (transform.py lines 336-359) -/

/-- Radius of curvature in the prime vertical, lines 351 and 354; the
`sqrt` argument is proved positive below (`one_sub_ecc1sq_sin_sq_pos`), so
the division is modelled as total. -/
def nuOf (lat : ℝ) : ℝ := semi_maj / Real.sqrt (1 - ecc1sq * Real.sin lat ^ 2)

/-- One pass of the fixed-point body, lines 351-353:
`atan((z + nu * ecc1sq * sin(lat)) / p)`. -/
def bowringNext (z p lat : ℝ) : ℝ :=
  Real.arctan ((z + nuOf lat * ecc1sq * Real.sin lat) / p)

/-- The `while abs(itercheck) > 1e-10` loop of lines 349-353.  The source
loop has no iteration cap; the fuel parameter is a modelling device and
`none` means the loop is still running after `fuel` iterations.  The body
always runs at least once because `itercheck` is initialised to 1. -/
def xyz2llhLoop (z p : ℝ) : ℕ → ℝ → Option ℝ
  | 0, _ => none
  | fuel + 1, lat =>
    if |lat - bowringNext z p lat| ≤ 1e-10 then some (bowringNext z p lat)
    else xyz2llhLoop z p fuel (bowringNext z p lat)

/-- `xyz2llh` (lines 336-359).  The guards are the conditions under which
Python raises: `sqrt` domain for `p` (never, kept for form), the division by
`p` in `latinit` (line 347, raises exactly when `x = y = 0`), and the
division by `cos(lat)` in the height (line 355).  No error constructor other
than `zeroDivision`/`mathDomain` occurs anywhere: in particular the function
can never signal `nonConvergence`. -/
def xyz2llh (fuel : ℕ) (x y z : ℝ) : Option (Except PyError (ℝ × ℝ × ℝ)) :=
  if x ^ 2 + y ^ 2 < 0 then some (.error .mathDomain)
  else if Real.sqrt (x ^ 2 + y ^ 2) = 0 then some (.error .zeroDivision)
  else
    match xyz2llhLoop z (Real.sqrt (x ^ 2 + y ^ 2)) fuel
        (Real.arctan (z * (1 + ecc2sq) / Real.sqrt (x ^ 2 + y ^ 2))) with
    | none => none
    | some lat =>
      if Real.cos lat = 0 then some (.error .zeroDivision)
      else some (.ok (degrees lat, degrees (atan2 y x),
          Real.sqrt (x ^ 2 + y ^ 2) / Real.cos lat - nuOf lat))

/-! ### Numeric facts about the GRS80 constants -/

lemma f_pos : 0 < f := by norm_num [f, invFlat]

lemma f_lt_one : f < 1 := by norm_num [f, invFlat]

lemma ecc1sq_pos : 0 < ecc1sq := by
  have h1 := f_pos
  have h2 := f_lt_one
  have : 0 < 2 - f := by linarith
  exact mul_pos h1 this

lemma ecc1sq_lt_one : ecc1sq < 1 := by
  have h2 := f_lt_one
  have h1 := f_pos
  rw [ecc1sq]
  nlinarith [sq_nonneg (1 - f)]

lemma ecc1_nonneg : 0 ≤ ecc1 := Real.sqrt_nonneg _

lemma ecc1_lt_one : ecc1 < 1 :=
  (Real.sqrt_lt' one_pos).mpr (by simpa using ecc1sq_lt_one)

/-! ### Guard discharge: the operations that can never raise -/

lemma sqrt_one_add_sq_pos (t : ℝ) : 0 < Real.sqrt (1 + t ^ 2) :=
  Real.sqrt_pos.mpr (by positivity)

lemma abs_le_sqrt_one_add_sq (t : ℝ) : |t| ≤ Real.sqrt (1 + t ^ 2) :=
  Real.abs_le_sqrt (by nlinarith [sq_nonneg t])

lemma abs_eccRatio_lt_one (t : ℝ) : |ecc1 * t / Real.sqrt (1 + t ^ 2)| < 1 := by
  have hs := sqrt_one_add_sq_pos t
  have habs := abs_le_sqrt_one_add_sq t
  rw [abs_div, abs_mul, abs_of_nonneg ecc1_nonneg, abs_of_pos hs, div_lt_one hs]
  calc ecc1 * |t| ≤ ecc1 * Real.sqrt (1 + t ^ 2) :=
        mul_le_mul_of_nonneg_left habs ecc1_nonneg
    _ < 1 * Real.sqrt (1 + t ^ 2) := mul_lt_mul_of_pos_right ecc1_lt_one hs
    _ = Real.sqrt (1 + t ^ 2) := one_mul _

lemma one_sub_eccRatio_pos (t : ℝ) : 0 < 1 - ecc1 * t / Real.sqrt (1 + t ^ 2) := by
  have h := abs_lt.mp (abs_eccRatio_lt_one t)
  linarith [h.2]

lemma one_add_eccRatio_pos (t : ℝ) : 0 < 1 + ecc1 * t / Real.sqrt (1 + t ^ 2) := by
  have h := abs_lt.mp (abs_eccRatio_lt_one t)
  linarith [h.1]

lemma eccRatio_quotient_pos (t : ℝ) :
    0 < (1 + ecc1 * t / Real.sqrt (1 + t ^ 2)) / (1 - ecc1 * t / Real.sqrt (1 + t ^ 2)) :=
  div_pos (one_add_eccRatio_pos t) (one_sub_eccRatio_pos t)

lemma add_sqrt_one_add_sq_pos (x : ℝ) : 0 < x + Real.sqrt (1 + x ^ 2) := by
  have h : |x| < Real.sqrt (1 + x ^ 2) := by
    rw [← Real.sqrt_sq_eq_abs]
    exact Real.sqrt_lt_sqrt (sq_nonneg x) (by linarith)
  have h2 := neg_abs_le x
  linarith

lemma one_sub_ecc1sq_sin_sq_pos (x : ℝ) : 0 < 1 - ecc1sq * Real.sin x ^ 2 := by
  have h1 : ecc1sq * Real.sin x ^ 2 ≤ ecc1sq * 1 :=
    mul_le_mul_of_nonneg_left (Real.sin_sq_le_one x) ecc1sq_pos.le
  have := ecc1sq_lt_one
  linarith

/-- The denominator of every Newton step of `grid2geo` is positive, so the
three unrolled steps of lines 322-324 can never raise. -/
lemma f1tn_pos (t : ℝ) : 0 < f1tn t := by
  have a1 : |sigmaT t| < Real.sqrt (1 + sigmaT t ^ 2) := by
    rw [← Real.sqrt_sq_eq_abs]
    exact Real.sqrt_lt_sqrt (sq_nonneg _) (by linarith)
  have a2 : |t| ≤ Real.sqrt (1 + t ^ 2) := abs_le_sqrt_one_add_sq t
  have h1 : |sigmaT t| * |t| < Real.sqrt (1 + sigmaT t ^ 2) * Real.sqrt (1 + t ^ 2) := by
    calc |sigmaT t| * |t| ≤ |sigmaT t| * Real.sqrt (1 + t ^ 2) :=
          mul_le_mul_of_nonneg_left a2 (abs_nonneg _)
      _ < Real.sqrt (1 + sigmaT t ^ 2) * Real.sqrt (1 + t ^ 2) :=
          mul_lt_mul_of_pos_right a1 (sqrt_one_add_sq_pos t)
  have h2 : sigmaT t * t ≤ |sigmaT t| * |t| := by
    calc sigmaT t * t ≤ |sigmaT t * t| := le_abs_self _
      _ = |sigmaT t| * |t| := abs_mul _ _
  have hfirst : 0 < Real.sqrt (1 + sigmaT t ^ 2) * Real.sqrt (1 + t ^ 2) - sigmaT t * t := by
    linarith
  have hsecond : 0 < (1 - ecc1sq) * Real.sqrt (1 + t ^ 2) / (1 + (1 - ecc1sq) * t ^ 2) := by
    have e1 := ecc1sq_lt_one
    apply div_pos
    · exact mul_pos (by linarith) (sqrt_one_add_sq_pos t)
    · nlinarith [sq_nonneg t]
  exact mul_pos hfirst hsecond

/-! ### Behaviour of `geo2grid`: the only guard that can fire is the
division by `cos(long_diff)` of line 239, and it depends only on the
longitude. -/

lemma geo2grid_eq (lat long : ℝ) :
    geo2grid lat long =
      if Real.cos (longDiff long) = 0 then .error .zeroDivision
      else .ok (zoneCalc long, roundN 5 (eastOf lat long), roundN 5 (northOf lat long)) := by
  have g1 : Real.sqrt (1 + fwdT lat ^ 2) ≠ 0 := ne_of_gt (sqrt_one_add_sq_pos _)
  have g2 : 1 - fwdSigx lat ≠ 0 := by
    simp only [fwdSigx]
    exact ne_of_gt (one_sub_eccRatio_pos (fwdT lat))
  have g3 : ¬ ((1 + fwdSigx lat) / (1 - fwdSigx lat) ≤ 0) := by
    simp only [fwdSigx]
    exact not_le.mpr (eccRatio_quotient_pos (fwdT lat))
  have g6 : ¬ (fwdEta1x lat long + Real.sqrt (1 + fwdEta1x lat long ^ 2) ≤ 0) :=
    not_le.mpr (add_sqrt_one_add_sq_pos _)
  by_cases hc : Real.cos (longDiff long) = 0
  · rw [geo2grid, if_neg g1, if_neg g2, if_neg g3, if_pos hc, if_pos hc]
  · have g5 : Real.sqrt (Real.tan (fwdConfLat lat) ^ 2 + Real.cos (longDiff long) ^ 2) ≠ 0 := by
      refine ne_of_gt (Real.sqrt_pos.mpr ?_)
      have hcos : 0 < Real.cos (longDiff long) ^ 2 :=
        lt_of_le_of_ne (sq_nonneg _) (Ne.symm (pow_ne_zero 2 hc))
      nlinarith [sq_nonneg (Real.tan (fwdConfLat lat))]
    rw [geo2grid, if_neg g1, if_neg g2, if_neg g3, if_neg hc, if_neg g5, if_neg g6, if_neg hc]

/-! ### Concrete zone evaluations -/

lemma zoneCalc_zero : zoneCalc 0 = 31 := by
  have e : ((0 : ℝ) - (zone0 - 1.5 * zonewidth)) / zonewidth = 31 := by
    norm_num [zone0, zonewidth]
  rw [zoneCalc, e, trunc, if_neg (by norm_num)]
  rw [show (31 : ℝ) = ((31 : ℤ) : ℝ) by norm_num, Int.floor_intCast]

lemma cmCalc_zero : cmCalc 0 = 3 := by
  rw [cmCalc, zoneCalc_zero]
  norm_num [zone0, zonewidth]

lemma longDiff_zero : longDiff 0 = -(Real.pi / 60) := by
  rw [longDiff, cmCalc_zero, radians]
  ring

lemma cos_longDiff_zero_pos : 0 < Real.cos (longDiff 0) := by
  rw [longDiff_zero]
  have hpi := Real.pi_pos
  apply Real.cos_pos_of_mem_Ioo
  constructor
  · simp only [neg_lt_neg_iff]
    linarith
  · linarith

/-! ### Claim theorems -/

/-- C2 counterexample: at longitude −190° the quotient is −2/3; Python
`int()` truncates it to 0 while the mathematical floor is −1, so the zone is
not the floor of the quotient. -/
theorem zone_not_floor_counterexample :
    zoneCalc (-190) ≠ ⌊((-190 : ℝ) - (zone0 - 1.5 * zonewidth)) / zonewidth⌋ := by
  have e : ((-190 : ℝ) - (zone0 - 1.5 * zonewidth)) / zonewidth = -2 / 3 := by
    norm_num [zone0, zonewidth]
  have h1 : zoneCalc (-190) = 0 := by
    rw [zoneCalc, e, trunc, if_pos (by norm_num)]
    rw [Int.ceil_eq_iff]
    constructor <;> norm_num
  have h2 : ⌊((-190 : ℝ) - (zone0 - 1.5 * zonewidth)) / zonewidth⌋ = -1 := by
    rw [e, Int.floor_eq_iff]
    constructor <;> norm_num
  rw [h1, h2]
  norm_num

/-- C2 (amended): `geo2grid` computes the zone as the truncation toward zero
of `(long - (origin - 1.5 * zoneWidth)) / zoneWidth` — which coincides with
the floor exactly when the quotient is non-negative — and the central
meridian as `zone * zoneWidth + (origin - zoneWidth)`. -/
theorem zone_floor_of_nonneg (long : ℝ)
    (h : 0 ≤ (long - (zone0 - 1.5 * zonewidth)) / zonewidth) :
    zoneCalc long = ⌊(long - (zone0 - 1.5 * zonewidth)) / zonewidth⌋ ∧
    cmCalc long = (zoneCalc long : ℝ) * zonewidth + (zone0 - zonewidth) := by
  refine ⟨?_, rfl⟩
  rw [zoneCalc, trunc, if_neg (not_lt.mpr h)]

/-- Witness for `zone_floor_of_nonneg` at longitude 0. -/
theorem zone_floor_of_nonneg_witness :
    0 ≤ ((0 : ℝ) - (zone0 - 1.5 * zonewidth)) / zonewidth ∧
    (zoneCalc 0 = ⌊((0 : ℝ) - (zone0 - 1.5 * zonewidth)) / zonewidth⌋ ∧
     cmCalc 0 = (zoneCalc 0 : ℝ) * zonewidth + (zone0 - zonewidth)) :=
  ⟨by norm_num [zone0, zonewidth],
   zone_floor_of_nonneg 0 (by norm_num [zone0, zonewidth])⟩

/-- C9 counterexample: at longitude −189° the quotient is −1/2 and at −183°
it is 1/2; `int()` truncates both to 0, so adding one zone width does not
increase the zone number. -/
theorem zone_shift_counterexample :
    ¬ zoneCalc (-189 + zonewidth) = zoneCalc (-189) + 1 := by
  have e1 : ((-189 : ℝ) + zonewidth - (zone0 - 1.5 * zonewidth)) / zonewidth = 1 / 2 := by
    norm_num [zone0, zonewidth]
  have e2 : ((-189 : ℝ) - (zone0 - 1.5 * zonewidth)) / zonewidth = -1 / 2 := by
    norm_num [zone0, zonewidth]
  have h1 : zoneCalc (-189 + zonewidth) = 0 := by
    rw [zoneCalc, e1, trunc, if_neg (by norm_num)]
    rw [Int.floor_eq_iff]
    constructor <;> norm_num
  have h2 : zoneCalc (-189) = 0 := by
    rw [zoneCalc, e2, trunc, if_pos (by norm_num)]
    rw [Int.ceil_eq_iff]
    constructor <;> norm_num
  rw [h1, h2]
  norm_num

/-- C9 (amended): adding one zone width to the longitude increases the zone
number by exactly 1 whenever the zone quotient is not in the interval
(−1, 0), i.e. for every longitude ≤ origin − 2.5·zoneWidth (= −192°) or
≥ origin − 1.5·zoneWidth (= −186°); inside that six-degree band the
truncation toward zero of Python `int()` breaks the shift. -/
theorem zone_shift_by_width (long : ℝ)
    (h : long ≤ zone0 - 2.5 * zonewidth ∨ zone0 - 1.5 * zonewidth ≤ long) :
    zoneCalc (long + zonewidth) = zoneCalc long + 1 := by
  have hwpos : (0 : ℝ) < zonewidth := by norm_num [zonewidth]
  have hq : (long + zonewidth - (zone0 - 1.5 * zonewidth)) / zonewidth
      = (long - (zone0 - 1.5 * zonewidth)) / zonewidth + 1 := by
    field_simp
    ring
  unfold zoneCalc
  rw [hq]
  set q : ℝ := (long - (zone0 - 1.5 * zonewidth)) / zonewidth with hqdef
  rcases h with h | h
  · have hq1 : q ≤ -1 := by
      rw [hqdef, div_le_iff₀ hwpos]
      norm_num [zone0, zonewidth] at h ⊢
      linarith
    rcases lt_or_eq_of_le (by linarith : q + 1 ≤ 0) with h0 | h0
    · rw [trunc, trunc, if_pos h0, if_pos (by linarith : q < 0)]
      rw [show q + 1 = q + ((1 : ℤ) : ℝ) by norm_num, Int.ceil_add_int]
    · have hqm1 : q = ((-1 : ℤ) : ℝ) := by push_cast; linarith
      rw [trunc, trunc, if_neg (by rw [h0]; exact lt_irrefl 0),
        if_pos (by rw [hqm1]; norm_num)]
      rw [h0, hqm1, Int.ceil_intCast]
      norm_num
  · have hq0 : (0 : ℝ) ≤ q := by
      rw [hqdef]
      apply div_nonneg _ hwpos.le
      norm_num [zone0, zonewidth] at h ⊢
      linarith
    rw [trunc, trunc, if_neg (not_lt.mpr (by linarith : (0 : ℝ) ≤ q + 1)),
      if_neg (not_lt.mpr hq0)]
    rw [show q + 1 = q + ((1 : ℤ) : ℝ) by norm_num, Int.floor_add_int]

/-- Witness for `zone_shift_by_width` at longitude 0: zone 31 becomes
zone 32. -/
theorem zone_shift_by_width_witness :
    (zone0 - 1.5 * zonewidth ≤ (0 : ℝ)) ∧
    zoneCalc (0 + zonewidth) = zoneCalc 0 + 1 :=
  ⟨by norm_num [zone0, zonewidth],
   zone_shift_by_width 0 (Or.inr (by norm_num [zone0, zonewidth]))⟩

/-- C8: the zone component of `geo2grid` is independent of the latitude —
two calls with the same longitude either fail at the same guard or return
the same zone `zoneCalc long`, which is a function of the longitude and the
configured zone width and origin only. -/
theorem geo2grid_zone_lat_independent (lat1 lat2 long : ℝ) :
    Except.map (fun r => r.1) (geo2grid lat1 long) =
    Except.map (fun r => r.1) (geo2grid lat2 long) := by
  rw [geo2grid_eq, geo2grid_eq]
  by_cases hc : Real.cos (longDiff long) = 0 <;> simp [hc, Except.map]

/-! ### `llh2xyz` is total and closed-form -/

lemma llh2xyz_eq (lat long ellht : ℝ) :
    llh2xyz lat long ellht = .ok (xyzSpec lat long ellht) := by
  by_cases h0 : radians lat = 0
  · rw [llh2xyz, if_pos h0, xyzSpec, nuSpecOf, h0]
    norm_num
  · have hpos := one_sub_ecc1sq_sin_sq_pos (radians lat)
    rw [llh2xyz, if_neg h0, if_neg (not_lt.mpr hpos.le),
      if_neg (ne_of_gt (Real.sqrt_pos.mpr hpos)), xyzSpec, nuSpecOf]

/-- C7: `llh2xyz` is closed-form: it always returns
`x = (nu + h) cos(lat) cos(long)`, `y = (nu + h) cos(lat) sin(long)`,
`z = ((b^2/a^2) nu + h) sin(lat)` with `nu = a / sqrt(1 - e1^2 sin^2 lat)`,
it uses `nu = a` directly when the latitude is exactly zero, and it has no
iteration and no error path. -/
theorem llh2xyz_closed_form (lat long ellht : ℝ) :
    llh2xyz lat long ellht = .ok (xyzSpec lat long ellht) ∧
    llh2xyz 0 long ellht = .ok (xyzOf semi_maj (radians 0) (radians long) ellht) := by
  refine ⟨llh2xyz_eq lat long ellht, ?_⟩
  rw [llh2xyz, if_pos (by simp [radians])]

/-- C3 counterexample: latitude 100° is outside [−90, 90], yet both
`geo2grid` and `llh2xyz` return numeric results instead of failing with
`invalidLatitude`. -/
theorem latitude_validation_counterexample :
    ((90 : ℝ) < 100) ∧ isOkE (geo2grid 100 0) = true ∧
    isOkE (llh2xyz 100 0 0) = true := by
  refine ⟨by norm_num, ?_, ?_⟩
  · rw [geo2grid_eq, if_neg (ne_of_gt cos_longDiff_zero_pos)]
    rfl
  · rw [llh2xyz_eq]
    rfl

/-- C3 (amended): neither `geo2grid` nor `llh2xyz` validates its latitude:
no input ever produces an `invalidLatitude` error — out-of-range latitudes
are processed numerically (the only failures `geo2grid` can have are raised
mid-computation by a zero divisor depending on the longitude, and `llh2xyz`
never fails at all). -/
theorem no_invalid_latitude_error (lat long ellht : ℝ) :
    geo2grid lat long ≠ .error .invalidLatitude ∧
    llh2xyz lat long ellht ≠ .error .invalidLatitude := by
  constructor
  · rw [geo2grid_eq]
    by_cases hc : Real.cos (longDiff long) = 0 <;> simp [hc]
  · rw [llh2xyz_eq]
    simp

/-- C5 counterexample: inverse flattening 4/5 ≤ 1 is accepted: the module
derives the (geometrically meaningless) constants without any
`invalidEllipsoid` rejection. -/
theorem ellipsoid_validation_counterexample :
    ((4 / 5 : ℝ) ≤ 1) ∧ isOkE (deriveEllipsoid 6378137 (4 / 5)) = true := by
  refine ⟨by norm_num, ?_⟩
  rw [deriveEllipsoid, if_neg (by norm_num), if_neg (by norm_num),
    if_neg (by norm_num), if_neg (by norm_num)]
  rfl

/-- C5 (amended): the constant derivation of lines 62-69 performs no
ellipsoid validation: no configuration is ever rejected with
`invalidEllipsoid`; the only failures are the incidental zero-division and
math-domain errors of the arithmetic itself. -/
theorem deriveEllipsoid_no_invalidEllipsoid (a invF : ℝ) :
    deriveEllipsoid a invF ≠ .error .invalidEllipsoid := by
  rw [deriveEllipsoid]
  split_ifs <;> simp

/-! ### `xyz2llh`: the polar axis and the missing iteration cap -/

lemma xyz2llhLoop_cos_pos (z p : ℝ) :
    ∀ fuel lat l, xyz2llhLoop z p fuel lat = some l → 0 < Real.cos l := by
  intro fuel
  induction fuel with
  | zero =>
    intro lat l h
    simp [xyz2llhLoop] at h
  | succ k ih =>
    intro lat l h
    rw [xyz2llhLoop] at h
    split_ifs at h with hcond
    · injection h with h'
      rw [← h']
      exact Real.cos_arctan_pos _
    · exact ih _ _ h

/-- C10: `xyz2llh` is partial exactly at the polar axis: with `x = y = 0`
the division by `p = sqrt(x^2 + y^2) = 0` in the initial latitude raises a
zero-division error, while for `x^2 + y^2 > 0` the divisor is non-zero and
no zero-division error can occur. -/
theorem xyz2llh_polar_axis (fuel : ℕ) (x y z : ℝ) :
    xyz2llh fuel 0 0 z = some (.error .zeroDivision) ∧
    (0 < x ^ 2 + y ^ 2 →
      Real.sqrt (x ^ 2 + y ^ 2) ≠ 0 ∧
      xyz2llh fuel x y z ≠ some (.error .zeroDivision)) := by
  constructor
  · rw [xyz2llh, if_neg (by norm_num),
      if_pos (by rw [show (0 : ℝ) ^ 2 + 0 ^ 2 = 0 by norm_num, Real.sqrt_zero])]
  · intro hp
    have hsq : Real.sqrt (x ^ 2 + y ^ 2) ≠ 0 := ne_of_gt (Real.sqrt_pos.mpr hp)
    refine ⟨hsq, ?_⟩
    rw [xyz2llh, if_neg (not_lt.mpr (by positivity)), if_neg hsq]
    cases hloop : xyz2llhLoop z (Real.sqrt (x ^ 2 + y ^ 2)) fuel
        (Real.arctan (z * (1 + ecc2sq) / Real.sqrt (x ^ 2 + y ^ 2))) with
    | none => simp [hloop]
    | some lat =>
      have hcos := xyz2llhLoop_cos_pos z (Real.sqrt (x ^ 2 + y ^ 2)) fuel _ _ hloop
      simp [hloop, if_neg (ne_of_gt hcos)]

/-- Witness for `xyz2llh_polar_axis` at the off-axis point (1, 0, 0). -/
theorem xyz2llh_polar_axis_witness :
    (0 : ℝ) < 1 ^ 2 + 0 ^ 2 ∧ xyz2llh 1 1 0 0 ≠ some (.error .zeroDivision) :=
  ⟨by norm_num, ((xyz2llh_polar_axis 1 1 0 0).2 (by norm_num)).2⟩

/-- C4: the latitude loop of `xyz2llh` has no maximum-iteration cap and the
function can never signal `nonConvergence` — for every fuel bound the
outcome is either a converged numeric result, an arithmetic error, or (when
the tolerance is still unmet) the loop simply continues. -/
theorem xyz2llh_never_nonConvergence (fuel : ℕ) (x y z : ℝ) :
    xyz2llh fuel x y z ≠ some (.error .nonConvergence) := by
  rw [xyz2llh]
  split_ifs with h1 h2
  · simp
  · simp
  · cases hloop : xyz2llhLoop z (Real.sqrt (x ^ 2 + y ^ 2)) fuel
        (Real.arctan (z * (1 + ecc2sq) / Real.sqrt (x ^ 2 + y ^ 2))) with
    | none => simp [hloop]
    | some lat =>
      simp only [hloop]
      split_ifs <;> simp

/-- C6: `grid2geo` recovers the geodetic latitude by exactly three Newton
steps on `ftn` starting from `t1`, returns `degrees(atan(t4))`, and rounds
both outputs to 11 decimal places; `newtonStep` is Newton's update
`t - ftn(t)/f1tn(t)` for the function
`f(t) = t sqrt(1 + sigma(t)^2) - sigma(t) sqrt(1 + t^2) - t1`. -/
theorem grid2geo_three_newton_steps (zone easting northing : ℝ) :
    grid2geo zone easting northing =
      Except.map (fun p =>
          (roundN 11 (degrees (Real.arctan ((newtonStep p.1)^[3] p.1))),
           roundN 11 p.2))
        (gridStem zone easting northing) ∧
    (∀ s t : ℝ, newtonStep s t = t - ftn s t / f1tn t ∧
      ftn s t = t * Real.sqrt (1 + sigmaT t ^ 2)
        - sigmaT t * Real.sqrt (1 + t ^ 2) - s) := by
  constructor
  · rw [grid2geo, gridStem]
    split_ifs <;> rfl
  · intro s t
    exact ⟨rfl, rfl⟩

end Transform
